import Mathlib

/-!
Verification of the clean-code-analyzer repository.

The repository is a two-part system: a React frontend (present under
`frontend/`, with the `FileUpload` component file-selection and submit
handlers) and a FastAPI backend housing the scoring engine
(`backend/main.py` / `analyzer.py`, referenced by the README but not part of
the available sources).  The frontend handlers are embedded here directly
from `FileUpload.tsx`; the scoring engine is modelled from the
spec component design (sections 3, 4 and 7 of the spec).
-/

namespace CleanCode

/-! ## Shared data model

The `AnalysisResult` record mirrors the `AnalysisResult` interface declared
in `App.tsx` / `ResultsDisplay.tsx` and the wire shape of
`POST /analyze-code`: an overall score, a breakdown with exactly the six
fixed categories, and a list of recommendation strings. -/

structure Breakdown where
  naming : Nat
  modularity : Nat
  comments : Nat
  formatting : Nat
  reusability : Nat
  best_practices : Nat
deriving DecidableEq, Repr

structure AnalysisResult where
  overall_score : Nat
  breakdown : Breakdown
  recommendations : List String
deriving DecidableEq, Repr

/-- The fixed per-category maxima, in category order
(naming, modularity, comments, formatting, reusability, best_practices),
as hardcoded in `ResultsDisplay.tsx` (the `/10`, `/20`, ... badges). -/
def categoryMaxima : List Nat := [10, 20, 20, 15, 15, 20]

/-! ## Character-level string primitives

The JavaScript and Python string operations the handlers and the engine
rely on (split, lowercase, trim, begins-with, substring search) are
re-implemented here by structural recursion over the character list of a
`String`, so every definition in this development evaluates on concrete
inputs. -/

/-- Split a character list at every occurrence of the separator character.
Like the JavaScript `split`, the result is never empty and keeps empty
segments. -/
def splitOnChar (sep : Char) : List Char → List (List Char)
  | [] => [[]]
  | c :: cs =>
    let rest := splitOnChar sep cs
    if c = sep then [] :: rest
    else
      match rest with
      | [] => [[c]]
      | seg :: segs => (c :: seg) :: segs

/-- Lowercase every character (the ASCII core of `toLowerCase`). -/
def lowerStr (s : String) : String := String.mk (s.data.map Char.toLower)

/-- Drop leading and trailing whitespace characters (`String.trim`). -/
def trimChars (l : List Char) : List Char :=
  ((l.dropWhile Char.isWhitespace).reverse.dropWhile Char.isWhitespace).reverse

/-- `String.trim`, re-implemented structurally. -/
def trimStr (s : String) : String := String.mk (trimChars s.data)

/-- Does the second list begin with the first (`startsWith`)? -/
def beginsWith : List Char → List Char → Bool
  | [], _ => true
  | _ :: _, [] => false
  | p :: ps, c :: cs => p = c && beginsWith ps cs

/-- Does the pattern occur as a contiguous sublist (substring search)? -/
def occursIn (pat : List Char) : List Char → Bool
  | [] => beginsWith pat []
  | c :: cs => beginsWith pat (c :: cs) || occursIn pat cs

/-! ## Frontend: the `FileUpload` component (`FileUpload.tsx`)

The component state is three `useState` cells: the selected `file`,
the `isLoading` flag and the `error` message.  A selected file is modelled
by its name (the only field the handlers inspect) together with its
content. -/

structure FileRec where
  name : String
  content : String
deriving DecidableEq, Repr

structure UploadState where
  file : Option FileRec
  isLoading : Bool
  error : Option String
deriving DecidableEq, Repr

/-- The initial component state: `useState(null)`, `useState(false)`,
`useState(null)`. -/
def initialState : UploadState := ⟨none, false, none⟩

/-- `selectedFile.name.split on the dot.pop()?.toLowerCase()` from
`handleFileChange`.  the JavaScript `split` never returns an empty array, so
`pop()` always yields a (possibly empty) string; `String.splitOn` likewise
never returns `[]`. -/
def fileExtension (name : String) : String :=
  lowerStr (String.mk ((splitOnChar '.' name.data).getLast?.getD []))

/-- The accepted extensions: js, jsx and py. -/
def validExtensions : List String := ["js", "jsx", "py"]

/-- `handleFileChange` from `FileUpload.tsx`: if no file was selected the
state is untouched; otherwise the lowercased last dot-segment of the name
is checked against the accepted list, and the handler either records the
rejection message and clears the file, or clears the error and stores the
file. -/
def handleFileChange (s : UploadState) (selected : Option FileRec) :
    UploadState :=
  match selected with
  | none => s
  | some f =>
    let ext := fileExtension f.name
    if ext.isEmpty || !(validExtensions.contains ext) then
      { s with error := some "Please select a .js, .jsx, or .py file",
               file := none }
    else
      { s with error := none, file := some f }

/-- The possible outcomes of the `fetch` call inside `handleSubmit`:
the response was ok and its JSON parsed to a result; the response was not
ok and its parsed JSON carried an optional `detail` field; or the fetch or
a `json()` call threw (with `isError` recording whether the thrown value
was an `Error` instance carrying `msg`). -/
inductive FetchOutcome where
  | okParsed (r : AnalysisResult)
  | notOk (detail : Option String)
  | threw (isError : Bool) (msg : String)
deriving DecidableEq, Repr

/-- the JavaScript `x || fallback` over the optional `detail` string: an
absent or empty (falsy) string selects the fallback. -/
def jsOrElse (d : Option String) (fallback : String) : String :=
  match d with
  | some s => if s.isEmpty then fallback else s
  | none => fallback

/-- What one invocation of `handleSubmit` produces: the final component
state, whether an analysis request (the `fetch`) was issued, and the
results propagated to the `onFileAnalyzed` callback. -/
structure SubmitOutput where
  state : UploadState
  requested : Bool
  propagated : List AnalysisResult
deriving DecidableEq, Repr

/-- `handleSubmit` from `FileUpload.tsx`.  Without a selected file it
records an error and returns before any request.  Otherwise it sets
`isLoading`, clears the error, performs the fetch and, depending on the
outcome: propagates the parsed result; or throws
an Error built from errorData.detail with the failed-to-analyze fallback which the catch
block records; or records the thrown error message (or the unknown-error
message for a non-`Error` value).  The `finally` block always resets
`isLoading`. -/
def handleSubmit (s : UploadState) (outcome : FetchOutcome) : SubmitOutput :=
  match s.file with
  | none =>
    ⟨{ s with error := some "Please select a file to analyze" }, false, []⟩
  | some _ =>
    let s1 : UploadState := { s with isLoading := true, error := none }
    match outcome with
    | .okParsed r =>
      ⟨{ s1 with isLoading := false }, true, [r]⟩
    | .notOk detail =>
      let m := jsOrElse detail "Failed to analyze code"
      ⟨{ s1 with error := some m, isLoading := false }, true, []⟩
    | .threw isError msg =>
      let m := if isError then msg else "An unknown error occurred"
      ⟨{ s1 with error := some m, isLoading := false }, true, []⟩

/-! ## Scoring engine

The engine lives in the backend (`backend/main.py` / `analyzer.py` per the
README); that file is not among the available sources, so every definition
below is modelled from the spec: the data model of section 3, the component
design of section 4 and the error taxonomy of section 7.  Exact numeric
thresholds are the tunable defaults the spec names in sections 4.3 and 9. -/

/-- Modelled from the spec: the two-variant language tag union of the
missing engine (`javascript` | `python`), section 3 / design note on
dynamic dispatch. -/
inductive Language where
  | javascript
  | python
deriving DecidableEq, Repr

/-- Modelled from the spec: the sole error the missing engine defines,
`UnsupportedLanguageError` (section 7). -/
inductive EngineError where
  | unsupportedLanguageError (tag : String)
deriving DecidableEq, Repr

/-- Modelled from the spec: the Engine Facade dispatch of the missing
engine on the declared language tag; only `javascript` and `python` are
supported values (section 3). -/
def parseLanguage (tag : String) : Option Language :=
  if tag = "javascript" then some .javascript
  else if tag = "python" then some .python
  else none

/-- Modelled from the spec: the Lexical Metrics Extractor of the missing
engine splits the raw text into lines, returning an empty sequence for
empty text (section 4.1). -/
def linesOf (text : String) : List String :=
  if text.isEmpty then []
  else (splitOnChar '\n' text.data).map String.mk

/-- Modelled from the spec: substring occurrence test used by the
rule-based heuristics of the missing engine. -/
def hasSub (s pat : String) : Bool := occursIn pat.data s.data

/-- Modelled from the spec: blank-line fact of the Lexical Metrics
Extractor (section 3, LineFacts). -/
def isBlank (line : String) : Bool := (trimChars line.data).isEmpty

/-- Modelled from the spec: comment-only-line fact per Language Profile
(section 4.2): `//` and block markers for JavaScript, `#` for Python. -/
def isCommentLine (lang : Language) (line : String) : Bool :=
  let t := trimChars line.data
  match lang with
  | .javascript =>
    beginsWith "//".data t || beginsWith "/*".data t ||
      beginsWith "*".data t
  | .python => beginsWith "#".data t

/-- Modelled from the spec: snake_case identifier pattern of the Python
profile (section 4.2). -/
def isSnakeCase (l : List Char) : Bool :=
  !l.isEmpty && l.all (fun c => c.isLower || c.isDigit || c = '_')

/-- Modelled from the spec: camelCase identifier pattern of the JavaScript
profile (section 4.2). -/
def isCamelCase (l : List Char) : Bool :=
  match l with
  | [] => false
  | c :: cs => c.isLower && (c :: cs).all (fun d => d.isAlphanum)

/-- Modelled from the spec: PascalCase class/component identifier pattern
(section 4.2). -/
def isPascalCase (l : List Char) : Bool :=
  match l with
  | [] => false
  | c :: cs => c.isUpper && (c :: cs).all (fun d => d.isAlphanum)

/-- Modelled from the spec: the identifier following a declaration keyword
on a trimmed line (best-effort lexical extraction, section 4.2). -/
def identAfter (t : List Char) (pre : String) : List Char :=
  (t.drop pre.data.length).takeWhile (fun c => c.isAlphanum || c = '_')

/-- Modelled from the spec: per-line naming-convention violations for the
Naming scorer (section 4.3): declared variables/functions must be
camelCase (JavaScript) or snake_case (Python), classes/components
PascalCase. -/
def lineNamingViolations (lang : Language) (line : String) : Nat :=
  let t := trimChars line.data
  match lang with
  | .python =>
    (if beginsWith "def ".data t && !(isSnakeCase (identAfter t "def "))
     then 1 else 0) +
    (if beginsWith "class ".data t &&
        !(isPascalCase (identAfter t "class "))
     then 1 else 0)
  | .javascript =>
    (if beginsWith "function ".data t &&
        !(isCamelCase (identAfter t "function "))
     then 1 else 0) +
    (if beginsWith "const ".data t &&
        !(isCamelCase (identAfter t "const ") ||
          isPascalCase (identAfter t "const "))
     then 1 else 0) +
    (if beginsWith "let ".data t && !(isCamelCase (identAfter t "let "))
     then 1 else 0) +
    (if beginsWith "var ".data t && !(isCamelCase (identAfter t "var "))
     then 1 else 0)

/-- Modelled from the spec: the Naming scorer of the missing engine
(max 10): start at the maximum and deduct a fixed 2 points per violating
identifier declaration, floored at 0 (section 4.3). -/
def namingScore (lang : Language) (lines : List String) : Nat :=
  10 - 2 * (lines.map (lineNamingViolations lang)).sum

/-- Modelled from the spec: function/def boundary markers per Language
Profile (sections 3 and 4.2), best-effort. -/
def isFunctionBoundary (lang : Language) (line : String) : Bool :=
  match lang with
  | .python =>
    beginsWith "def ".data (trimChars line.data) ||
      beginsWith "class ".data (trimChars line.data)
  | .javascript => hasSub line "function " || hasSub line "=>"

/-- Modelled from the spec: heuristic FunctionUnit body line counts — each
boundary line opens a unit extending to the next boundary or to end of
file (section 3, FunctionUnit, best-effort only). -/
def functionBodyLens (lang : Language) (lines : List String) : List Nat :=
  let idxs := ((lines.enum.filter
    (fun p => isFunctionBoundary lang p.2)).map (fun p => p.1))
  (idxs.zip (idxs.drop 1 ++ [lines.length])).map (fun p => p.2 - p.1 - 1)

/-- Modelled from the spec: leading-whitespace width fact (section 3,
LineFacts). -/
def leadingSpaceCount (line : String) : Nat :=
  (line.data.takeWhile (fun c => c = ' ')).length

/-- Modelled from the spec: the Modularity scorer of the missing engine
(max 20): deduct per function whose body exceeds the 30-line threshold
(2 points plus 1 per further 10 excess lines) and 1 per line nested beyond
depth 3 at the 4-space unit, floored at 0 (section 4.3; zero functions
mean full marks). -/
def modularityScore (lang : Language) (lines : List String) : Nat :=
  let lenPenalty := ((functionBodyLens lang lines).map
    (fun n => if n > 30 then 2 + (n - 30) / 10 else 0)).sum
  let nestPenalty :=
    (lines.filter (fun l => !(isBlank l) && leadingSpaceCount l > 12)).length
  20 - (lenPenalty + nestPenalty)

/-- Modelled from the spec: documentation-line test — a Python docstring
marker or comment, or a JavaScript comment/JSDoc line (section 4.2). -/
def isDocLine (lang : Language) (line : String) : Bool :=
  match lang with
  | .python =>
    beginsWith "\x22\x22\x22".data (trimChars line.data) ||
      isCommentLine .python line
  | .javascript => isCommentLine .javascript line

/-- Modelled from the spec: count of declared functions/classes lacking
adjacent documentation — a docstring on the following line for Python, a
comment/JSDoc on the preceding line for JavaScript (section 4.3). -/
def undocumentedFnCount (lang : Language) (lines : List String) : Nat :=
  match lang with
  | .python =>
    ((lines.zip (lines.drop 1 ++ [""])).filter
      (fun p => isFunctionBoundary .python p.1 &&
        !(isDocLine .python p.2))).length
  | .javascript =>
    ((("" :: lines).zip lines).filter
      (fun p => isFunctionBoundary .javascript p.2 &&
        !(isDocLine .javascript p.1))).length

/-- Modelled from the spec: the Comments scorer of the missing engine
(max 20): scored upward from the comment-to-code-line ratio (full marks at
a 20 percent ratio), capped at the maximum, minus 2 per undocumented
function/class, floored at 0; a file with no code lines gets full marks
(sections 4.3 and its tie-break policy). -/
def commentsScore (lang : Language) (lines : List String) : Nat :=
  let commentCount := (lines.filter (isCommentLine lang)).length
  let codeCount := (lines.filter
    (fun l => !(isBlank l) && !(isCommentLine lang l))).length
  if codeCount = 0 then 20
  else min 20 ((commentCount * 100) / codeCount) -
    2 * undocumentedFnCount lang lines

/-- Modelled from the spec: mixed tab/space indentation fact (sections 3
and 4.1). -/
def isMixedIndent (line : String) : Bool :=
  let ws := line.data.takeWhile (fun c => c = ' ' || c = '\t')
  ws.contains ' ' && ws.contains '\t'

/-- Modelled from the spec: the Formatting scorer of the missing engine
(max 15): deduct 1 per line over 100 characters and 2 per mixed tab/space
indented line, floored at 0 (section 4.3). -/
def formattingScore (lines : List String) : Nat :=
  let longCount := (lines.filter (fun l => l.length > 100)).length
  let mixedCount := (lines.filter isMixedIndent).length
  15 - (longCount + 2 * mixedCount)

/-- Modelled from the spec: count of repeated (near-duplicate) substantial
lines — trimmed lines longer than 5 characters occurring more than once
count each repeat (section 4.3, Reusability). -/
def duplicateLineCount (lines : List String) : Nat :=
  let sig := (lines.map trimStr).filter (fun l => l.length > 5)
  sig.length - sig.eraseDups.length

/-- Modelled from the spec: the Reusability scorer of the missing engine
(max 15): deduct 2 per duplicated substantial line, floored at 0
(section 4.3). -/
def reusabilityScore (lines : List String) : Nat :=
  15 - 2 * duplicateLineCount lines

/-- Modelled from the spec: the Best-Practices scorer of the missing
engine (max 20), language-specific (section 4.3): Python deducts 5 for
absence of type hints on declared functions, 5 for absence of error
handling when functions exist, and 5 for resource acquisition without a
context manager; JavaScript deducts 5 for async code without error
handling and 5 for img elements without accessibility attributes; floored
at 0. -/
def bestPracticesScore (lang : Language) (text : String)
    (lines : List String) : Nat :=
  match lang with
  | .python =>
    let defCount := (lines.filter
      (fun l => beginsWith "def ".data (trimChars l.data))).length
    let pHints := if defCount > 0 && !(hasSub text "->") &&
      !(hasSub text ": ") then 5 else 0
    let pTry := if defCount > 0 && !(hasSub text "try") then 5 else 0
    let pWith := if hasSub text "open(" && !(hasSub text "with ")
      then 5 else 0
    20 - (pHints + pTry + pWith)
  | .javascript =>
    let pAsync := if hasSub text "async" && !(hasSub text "try") &&
      !(hasSub text ".catch(") then 5 else 0
    let pAlt := if hasSub text "<img" && !(hasSub text "alt=") then 5 else 0
    20 - (pAsync + pAlt)

/-- Modelled from the spec: one category observation for the
Recommendation Generator of the missing engine — category name, points
lost, category maximum, and the rendered advice sentence (section 4.4). -/
structure CategoryDeficit where
  catName : String
  lost : Nat
  maxPts : Nat
  advice : String
deriving DecidableEq, Repr

/-- Modelled from the spec: the six category observations in the fixed
category list order used for tie-breaking (section 4.4). -/
def deficitsOf (b : Breakdown) : List CategoryDeficit :=
  [⟨"naming", 10 - b.naming, 10,
    "Use consistent camelCase, snake_case or PascalCase names as the language dictates."⟩,
   ⟨"modularity", 20 - b.modularity, 20,
    "Break long or deeply nested functions into smaller units."⟩,
   ⟨"comments", 20 - b.comments, 20,
    "Add comments and docstrings to document functions and classes."⟩,
   ⟨"formatting", 15 - b.formatting, 15,
    "Shorten long lines and keep indentation consistent."⟩,
   ⟨"reusability", 15 - b.reusability, 15,
    "Extract duplicated lines and repeated literals into shared helpers."⟩,
   ⟨"best_practices", 20 - b.best_practices, 20,
    "Follow language best practices such as error handling, type hints and accessibility attributes."⟩]

/-- Modelled from the spec: stable insertion by proportional deficit
(points lost over maximum, compared by cross-multiplication), largest
first; on ties the incoming earlier-category element stays first
(section 4.4). -/
def insertByDeficit (c : CategoryDeficit) :
    List CategoryDeficit → List CategoryDeficit
  | [] => [c]
  | d :: ds =>
    if c.lost * d.maxPts ≥ d.lost * c.maxPts then c :: d :: ds
    else d :: insertByDeficit c ds

/-- Modelled from the spec: sort the category observations by proportional
deficit, descending, ties in category list order (section 4.4). -/
def sortByDeficit (l : List CategoryDeficit) : List CategoryDeficit :=
  l.foldr insertByDeficit []

/-- Modelled from the spec: the generic best-practice reminders that pad
the recommendation list up to 3 entries (section 4.4). -/
def genericRecommendations : List String :=
  ["Code looks clean; keep functions small and focused.",
   "Maintain documentation as the file grows.",
   "Keep following the naming and formatting conventions of the language."]

/-- Modelled from the spec: the Recommendation Generator of the missing
engine — render one sentence per category with a nonzero deficit, ordered
by proportional deficit with ties in category list order, keep at most the
top 5 and pad with generic reminders up to 3 (section 4.4). -/
def recommendationsFor (b : Breakdown) : List String :=
  let concrete := (sortByDeficit
    ((deficitsOf b).filter (fun c => 0 < c.lost))).map (fun c => c.advice)
  if 3 ≤ concrete.length then concrete.take 5
  else concrete ++ genericRecommendations.take (3 - concrete.length)

/-- Modelled from the spec: the per-category breakdown assembled by the
Engine Facade of the missing engine from the six scorers (section 4.5). -/
def breakdownOf (text : String) (lang : Language) : Breakdown :=
  let lines := linesOf text
  ⟨namingScore lang lines, modularityScore lang lines,
   commentsScore lang lines, formattingScore lines,
   reusabilityScore lines, bestPracticesScore lang text lines⟩

/-- The sum of the six breakdown sub-scores. -/
def sumBreakdown (b : Breakdown) : Nat :=
  b.naming + b.modularity + b.comments + b.formatting + b.reusability +
    b.best_practices

/-- Modelled from the spec: the successful analysis path of the Engine
Facade — the overall score is formed only as the sum of the six
sub-scores (section 4.5). -/
def analyzeDoc (text : String) (lang : Language) : AnalysisResult :=
  let b := breakdownOf text lang
  ⟨sumBreakdown b, b, recommendationsFor b⟩

/-- Modelled from the spec: the engine entry point
`analyze(text, languageTag) -> AnalysisResult` of the missing engine,
failing with `UnsupportedLanguageError` exactly when the tag is outside
the supported set (sections 4.5 and 7). -/
def analyze (text : String) (tag : String) :
    Except EngineError AnalysisResult :=
  match parseLanguage tag with
  | some lang => .ok (analyzeDoc text lang)
  | none => .error (.unsupportedLanguageError tag)

/-! ## Helper lemmas: per-scorer bounds -/

theorem namingScore_le (lang : Language) (lines : List String) :
    namingScore lang lines ≤ 10 :=
  Nat.sub_le _ _

theorem modularityScore_le (lang : Language) (lines : List String) :
    modularityScore lang lines ≤ 20 :=
  Nat.sub_le _ _

theorem commentsScore_le (lang : Language) (lines : List String) :
    commentsScore lang lines ≤ 20 := by
  unfold commentsScore
  by_cases h : (List.filter
      (fun l => !isBlank l && !isCommentLine lang l) lines).length = 0
  · simp only [h, if_pos]
    exact Nat.le_refl 20
  · simp only [h, if_neg, if_false]
    exact le_trans (Nat.sub_le _ _) (min_le_left _ _)

theorem formattingScore_le (lines : List String) :
    formattingScore lines ≤ 15 :=
  Nat.sub_le _ _

theorem reusabilityScore_le (lines : List String) :
    reusabilityScore lines ≤ 15 :=
  Nat.sub_le _ _

theorem bestPracticesScore_le (lang : Language) (text : String)
    (lines : List String) : bestPracticesScore lang text lines ≤ 20 := by
  cases lang <;> exact Nat.sub_le _ _

theorem breakdownOf_bounds (text : String) (lang : Language) :
    (breakdownOf text lang).naming ≤ 10 ∧
    (breakdownOf text lang).modularity ≤ 20 ∧
    (breakdownOf text lang).comments ≤ 20 ∧
    (breakdownOf text lang).formatting ≤ 15 ∧
    (breakdownOf text lang).reusability ≤ 15 ∧
    (breakdownOf text lang).best_practices ≤ 20 :=
  ⟨namingScore_le _ _, modularityScore_le _ _, commentsScore_le _ _,
   formattingScore_le _, reusabilityScore_le _, bestPracticesScore_le _ _ _⟩

theorem sumBreakdown_breakdownOf_le (text : String) (lang : Language) :
    sumBreakdown (breakdownOf text lang) ≤ 100 := by
  have h := breakdownOf_bounds text lang
  unfold sumBreakdown
  omega

/-- When `analyze` succeeds, the result is `analyzeDoc` of the parsed
language. -/
theorem analyze_ok_elim (text tag : String) (r : AnalysisResult)
    (h : analyze text tag = .ok r) :
    ∃ lang, parseLanguage tag = some lang ∧ r = analyzeDoc text lang := by
  unfold analyze at h
  cases hp : parseLanguage tag with
  | none => rw [hp] at h; cases h
  | some lang =>
    rw [hp] at h
    cases h
    exact ⟨lang, rfl, rfl⟩

/-! ## Claim theorems -/

/-- C1: for every valid input (any text plus a supported language tag),
`analyze` returns a result whose `overall_score` equals exactly the sum of
the six breakdown sub-scores, and that sum lies between 0 and 100
inclusive; the overall score is only ever formed as that sum. -/
theorem analyze_overall_eq_sum (text tag : String) (r : AnalysisResult)
    (h : analyze text tag = .ok r) :
    r.overall_score =
      r.breakdown.naming + r.breakdown.modularity + r.breakdown.comments +
        r.breakdown.formatting + r.breakdown.reusability +
        r.breakdown.best_practices ∧
    r.overall_score ≤ 100 := by
  obtain ⟨lang, _, hr⟩ := analyze_ok_elim text tag r h
  subst hr
  exact ⟨rfl, sumBreakdown_breakdownOf_le text lang⟩

/-- Witness for C1 at the concrete input `("", "python")`. -/
theorem analyze_overall_eq_sum_witness :
    (analyzeDoc "" Language.python).overall_score =
      (analyzeDoc "" Language.python).breakdown.naming +
        (analyzeDoc "" Language.python).breakdown.modularity +
        (analyzeDoc "" Language.python).breakdown.comments +
        (analyzeDoc "" Language.python).breakdown.formatting +
        (analyzeDoc "" Language.python).breakdown.reusability +
        (analyzeDoc "" Language.python).breakdown.best_practices ∧
    (analyzeDoc "" Language.python).overall_score ≤ 100 :=
  analyze_overall_eq_sum "" "python" (analyzeDoc "" Language.python) rfl

/-- C2: every analysis result carries a breakdown of exactly the six fixed
categories (the fields of `Breakdown`), each value lies within
`[0, category_max]` for the fixed maxima 10, 20, 20, 15, 15, 20, and those
maxima sum to exactly 100. -/
theorem analyze_breakdown_bounds (text tag : String) (r : AnalysisResult)
    (h : analyze text tag = .ok r) :
    r.breakdown.naming ≤ 10 ∧ r.breakdown.modularity ≤ 20 ∧
    r.breakdown.comments ≤ 20 ∧ r.breakdown.formatting ≤ 15 ∧
    r.breakdown.reusability ≤ 15 ∧ r.breakdown.best_practices ≤ 20 ∧
    categoryMaxima = [10, 20, 20, 15, 15, 20] ∧ categoryMaxima.sum = 100 := by
  obtain ⟨lang, _, hr⟩ := analyze_ok_elim text tag r h
  subst hr
  have hb := breakdownOf_bounds text lang
  exact ⟨hb.1, hb.2.1, hb.2.2.1, hb.2.2.2.1, hb.2.2.2.2.1, hb.2.2.2.2.2,
    rfl, rfl⟩

/-- Witness for C2 at the concrete input `("", "javascript")`. -/
theorem analyze_breakdown_bounds_witness :
    (analyzeDoc "" Language.javascript).breakdown.naming ≤ 10 ∧
    (analyzeDoc "" Language.javascript).breakdown.modularity ≤ 20 ∧
    (analyzeDoc "" Language.javascript).breakdown.comments ≤ 20 ∧
    (analyzeDoc "" Language.javascript).breakdown.formatting ≤ 15 ∧
    (analyzeDoc "" Language.javascript).breakdown.reusability ≤ 15 ∧
    (analyzeDoc "" Language.javascript).breakdown.best_practices ≤ 20 ∧
    categoryMaxima = [10, 20, 20, 15, 15, 20] ∧ categoryMaxima.sum = 100 :=
  analyze_breakdown_bounds "" "javascript"
    (analyzeDoc "" Language.javascript) rfl

/-- C4: for every language tag outside the supported set, `analyze` fails
with `UnsupportedLanguageError` and produces no partial result (the error
type has a single constructor, so this is the sole defined error), and for
every supported tag and arbitrary text the engine returns a result and
never throws. -/
theorem analyze_error_taxonomy (text tag : String) :
    (tag ≠ "javascript" ∧ tag ≠ "python" →
      analyze text tag = .error (.unsupportedLanguageError tag)) ∧
    (tag = "javascript" ∨ tag = "python" →
      ∃ r, analyze text tag = .ok r) := by
  constructor
  · intro ⟨h1, h2⟩
    unfold analyze parseLanguage
    rw [if_neg h1, if_neg h2]
  · rintro (rfl | rfl) <;> exact ⟨_, rfl⟩

/-- Witness for C4 at the concrete tags `"ruby"` and `"python"`. -/
theorem analyze_error_taxonomy_witness :
    analyze "x = 1" "ruby" =
      .error (.unsupportedLanguageError "ruby") ∧
    ∃ r, analyze "x = 1" "python" = .ok r :=
  ⟨(analyze_error_taxonomy "x = 1" "ruby").1 (by decide),
   (analyze_error_taxonomy "x = 1" "python").2 (Or.inr rfl)⟩

/-- C5: the analysis is deterministic — two calls with identical text and
identical language tag return identical results (the embedding is a pure
function of its two arguments, with no other state to read). -/
theorem analyze_deterministic (text1 text2 tag1 tag2 : String)
    (ht : text1 = text2) (hg : tag1 = tag2) :
    analyze text1 tag1 = analyze text2 tag2 := by
  subst ht
  subst hg
  rfl

/-- Witness for C5 at a concrete repeated call. -/
theorem analyze_deterministic_witness :
    analyze "const x = 1" "javascript" = analyze "const x = 1" "javascript" :=
  analyze_deterministic "const x = 1" "const x = 1" "javascript" "javascript"
    rfl rfl

theorem genericRecommendations_length : genericRecommendations.length = 3 :=
  rfl

/-- The pad-to-3 / truncate-to-5 step keeps the list length in `[3, 5]`. -/
theorem padTruncate_bounds (l : List String) :
    3 ≤ (if 3 ≤ l.length then l.take 5
         else l ++ genericRecommendations.take (3 - l.length)).length ∧
    (if 3 ≤ l.length then l.take 5
     else l ++ genericRecommendations.take (3 - l.length)).length ≤ 5 := by
  by_cases h : 3 ≤ l.length
  · rw [if_pos h]
    rw [List.length_take]
    omega
  · rw [if_neg h]
    rw [List.length_append, List.length_take, genericRecommendations_length]
    omega

theorem recommendationsFor_length_bounds (b : Breakdown) :
    3 ≤ (recommendationsFor b).length ∧ (recommendationsFor b).length ≤ 5 :=
  padTruncate_bounds _

/-- C6: for every non-empty input text under a supported tag, the
recommendations list in the result has length at least 3 (padded with
generic reminders when fewer than 3 concrete violations exist) and at most
5 (truncated to the top 5 otherwise). -/
theorem analyze_recommendations_length (text tag : String)
    (r : AnalysisResult) (_hne : text ≠ "") (h : analyze text tag = .ok r) :
    3 ≤ r.recommendations.length ∧ r.recommendations.length ≤ 5 := by
  obtain ⟨lang, _, hr⟩ := analyze_ok_elim text tag r h
  subst hr
  exact recommendationsFor_length_bounds _

/-- Witness for C6 at the concrete input `("x = 1", "python")`. -/
theorem analyze_recommendations_length_witness :
    3 ≤ (analyzeDoc "x = 1" Language.python).recommendations.length ∧
    (analyzeDoc "x = 1" Language.python).recommendations.length ≤ 5 :=
  analyze_recommendations_length "x = 1" "python"
    (analyzeDoc "x = 1" Language.python) (by decide) rfl

/-- C7: on the empty string under either supported tag, every one of the
six scorers returns its category maximum, so the overall score is exactly
100, and the recommendation generator returns the generic no-violation
set. -/
theorem analyze_empty_full_marks :
    (∀ lang : Language,
      namingScore lang (linesOf "") = 10 ∧
      modularityScore lang (linesOf "") = 20 ∧
      commentsScore lang (linesOf "") = 20 ∧
      bestPracticesScore lang "" (linesOf "") = 20) ∧
    formattingScore (linesOf "") = 15 ∧
    reusabilityScore (linesOf "") = 15 ∧
    analyze "" "javascript" =
      .ok ⟨100, ⟨10, 20, 20, 15, 15, 20⟩, genericRecommendations⟩ ∧
    analyze "" "python" =
      .ok ⟨100, ⟨10, 20, 20, 15, 15, 20⟩, genericRecommendations⟩ := by
  refine ⟨fun lang => ?_, rfl, rfl, rfl, rfl⟩
  cases lang <;> exact ⟨rfl, rfl, rfl, rfl⟩

/-- C3: every selected file whose computed extension (the lowercased last
dot-segment of its name) is not js, jsx or py is rejected by
`handleFileChange` before any analysis: the rejection message is recorded,
the selected file is cleared, and a subsequent submit issues no analysis
request and propagates nothing. -/
theorem handleFileChange_rejects_invalid (s : UploadState) (f : FileRec)
    (h : validExtensions.contains (fileExtension f.name) = false) :
    (handleFileChange s (some f)).error =
      some "Please select a .js, .jsx, or .py file" ∧
    (handleFileChange s (some f)).file = none ∧
    ∀ outcome : FetchOutcome,
      (handleSubmit (handleFileChange s (some f)) outcome).requested =
        false ∧
      (handleSubmit (handleFileChange s (some f)) outcome).propagated =
        [] := by
  have hc : ((fileExtension f.name).isEmpty ||
      !(validExtensions.contains (fileExtension f.name))) = true := by
    rw [h]
    simp
  have hstate : handleFileChange s (some f) =
      { s with error := some "Please select a .js, .jsx, or .py file",
               file := none } := by
    simp only [handleFileChange]
    rw [hc]
    rfl
  rw [hstate]
  exact ⟨rfl, rfl, fun outcome => ⟨rfl, rfl⟩⟩

/-- Witness for C3 at a concrete `.rb` file. -/
theorem handleFileChange_rejects_invalid_witness :
    validExtensions.contains (fileExtension "main.rb") = false ∧
    (handleFileChange initialState (some ⟨"main.rb", "x = 1"⟩)).error =
      some "Please select a .js, .jsx, or .py file" ∧
    (handleFileChange initialState (some ⟨"main.rb", "x = 1"⟩)).file =
      none ∧
    (handleSubmit
      (handleFileChange initialState (some ⟨"main.rb", "x = 1"⟩))
      (.threw true "net down")).requested = false :=
  have h := handleFileChange_rejects_invalid initialState
    ⟨"main.rb", "x = 1"⟩ (by decide)
  ⟨by decide, h.1, h.2.1, (h.2.2 (.threw true "net down")).1⟩

/-- C8: the extension check lowercases the last dot-separated segment of
the file name, so acceptance is case-insensitive (MAIN.PY is accepted),
and a dotless name that is itself js, jsx or py (such as a file named
exactly py) also passes validation. -/
theorem fileExtension_lowercase_last_segment (s : UploadState) (c : String) :
    fileExtension "MAIN.PY" = "py" ∧
    (handleFileChange s (some ⟨"MAIN.PY", c⟩)).file = some ⟨"MAIN.PY", c⟩ ∧
    (handleFileChange s (some ⟨"MAIN.PY", c⟩)).error = none ∧
    fileExtension "py" = "py" ∧
    (handleFileChange s (some ⟨"py", c⟩)).file = some ⟨"py", c⟩ ∧
    (handleFileChange s (some ⟨"py", c⟩)).error = none :=
  ⟨rfl, rfl, rfl, rfl, rfl, rfl⟩

/-- C9: with a file selected, `handleSubmit` propagates a result to the
callback exactly when the response outcome is ok; any non-ok response or
thrown error records an error message and propagates nothing, and the
loading flag ends false in every case. -/
theorem handleSubmit_propagation (s : UploadState) (f : FileRec)
    (outcome : FetchOutcome) (h : s.file = some f) :
    (handleSubmit s outcome).state.isLoading = false ∧
    (match outcome with
     | .okParsed r =>
       (handleSubmit s outcome).propagated = [r] ∧
       (handleSubmit s outcome).state.error = none
     | .notOk d =>
       (handleSubmit s outcome).propagated = [] ∧
       (handleSubmit s outcome).state.error =
         some (jsOrElse d "Failed to analyze code")
     | .threw b m =>
       (handleSubmit s outcome).propagated = [] ∧
       (handleSubmit s outcome).state.error =
         some (if b then m else "An unknown error occurred")) := by
  obtain ⟨sf, sl, se⟩ := s
  have h2 : sf = some f := h
  subst h2
  cases outcome <;> exact ⟨rfl, rfl, rfl⟩

/-- Witness for C9 at a concrete selected file and an ok outcome. -/
theorem handleSubmit_propagation_witness :
    (handleSubmit ⟨some ⟨"a.py", "x = 1"⟩, true, none⟩
      (.okParsed ⟨100, ⟨10, 20, 20, 15, 15, 20⟩, []⟩)).state.isLoading =
        false ∧
    (handleSubmit ⟨some ⟨"a.py", "x = 1"⟩, true, none⟩
      (.okParsed ⟨100, ⟨10, 20, 20, 15, 15, 20⟩, []⟩)).propagated =
        [⟨100, ⟨10, 20, 20, 15, 15, 20⟩, []⟩] ∧
    (handleSubmit ⟨some ⟨"a.py", "x = 1"⟩, true, none⟩
      (.okParsed ⟨100, ⟨10, 20, 20, 15, 15, 20⟩, []⟩)).state.error =
        none :=
  have h := handleSubmit_propagation ⟨some ⟨"a.py", "x = 1"⟩, true, none⟩
    ⟨"a.py", "x = 1"⟩ (.okParsed ⟨100, ⟨10, 20, 20, 15, 15, 20⟩, []⟩) rfl
  ⟨h.1, h.2.1, h.2.2⟩

/-- C10: after any invocation of `handleFileChange` with a selected file,
at most one of the selected file and the validation error is non-null:
acceptance clears any prior error, and rejection clears any previously
selected file, so no stale file can be submitted after a rejection. -/
theorem handleFileChange_exclusivity (s : UploadState) (f : FileRec)
    (s2 : UploadState) (hs2 : s2 = handleFileChange s (some f)) :
    (s2.file = none ∨ s2.error = none) ∧
    (s2.file = some f → s2.error = none) ∧
    (s2.error ≠ none → s2.file = none ∧
      ∀ outcome : FetchOutcome,
        (handleSubmit s2 outcome).requested = false ∧
        (handleSubmit s2 outcome).propagated = []) := by
  subst hs2
  obtain ⟨sf, sl, se⟩ := s
  cases hcond : ((fileExtension f.name).isEmpty ||
      !(validExtensions.contains (fileExtension f.name))) with
  | true =>
    have hstate : handleFileChange ⟨sf, sl, se⟩ (some f) =
        ⟨none, sl, some "Please select a .js, .jsx, or .py file"⟩ := by
      simp only [handleFileChange]
      rw [hcond]
      rfl
    rw [hstate]
    exact ⟨Or.inl rfl, fun hfile => Option.noConfusion hfile,
      fun _ => ⟨rfl, fun outcome => ⟨rfl, rfl⟩⟩⟩
  | false =>
    have hstate : handleFileChange ⟨sf, sl, se⟩ (some f) =
        ⟨some f, sl, none⟩ := by
      simp only [handleFileChange]
      rw [hcond]
      rfl
    rw [hstate]
    exact ⟨Or.inr rfl, fun _ => rfl, fun hne => absurd rfl hne⟩

/-- Witness for C10 at a concrete prior state holding a valid file and a
newly selected invalid file. -/
theorem handleFileChange_exclusivity_witness :
    ((handleFileChange ⟨some ⟨"old.js", "let a = 1"⟩, false, none⟩
        (some ⟨"notes.txt", "hello"⟩)).file = none ∨
      (handleFileChange ⟨some ⟨"old.js", "let a = 1"⟩, false, none⟩
        (some ⟨"notes.txt", "hello"⟩)).error = none) ∧
    (handleFileChange ⟨some ⟨"old.js", "let a = 1"⟩, false, none⟩
      (some ⟨"notes.txt", "hello"⟩)).file = none ∧
    (handleSubmit
      (handleFileChange ⟨some ⟨"old.js", "let a = 1"⟩, false, none⟩
        (some ⟨"notes.txt", "hello"⟩))
      (.okParsed ⟨100, ⟨10, 20, 20, 15, 15, 20⟩, []⟩)).requested = false :=
  have h := handleFileChange_exclusivity
    ⟨some ⟨"old.js", "let a = 1"⟩, false, none⟩ ⟨"notes.txt", "hello"⟩
    (handleFileChange ⟨some ⟨"old.js", "let a = 1"⟩, false, none⟩
      (some ⟨"notes.txt", "hello"⟩)) rfl
  have hrej := h.2.2 (by decide)
  ⟨h.1, hrej.1,
    (hrej.2 (.okParsed ⟨100, ⟨10, 20, 20, 15, 15, 20⟩, []⟩)).1⟩

end CleanCode
